import Mathlib

/-!
Verification of the Bench lifecycle and configuration reconciliation
engine of this repository (frappe_manager/site_manager/site.py).

Every Python method relevant to the verified properties is shallowly
embedded as a pure Lean function.  Side effects (docker calls, prompts,
file writes, external command executions) are reified as events in a
trace, and fallible operations return an explicit error component.
Collaborator behaviour that lives outside this repository (the compose
project, the workers manager, the SSL certificate manager, the backup
manager) is modelled from the specification where noted in the relevant
doc comments.
-/

namespace FrappeManager

/-! ### C1 — Bench.ensure_workers_running_if_available

Source (site.py, lines 1013-1017):
  if self.workers.compose_project.compose_file_manager.exists():
      if not self.workers.compose_project.running:
          if self.compose_project.running:
              self.workers.compose_project.start_service()
The only side effect is the start of the worker group, reified below as
the single event `startWorkers`; the state queries become the three
boolean inputs. -/

inductive WorkerEvent
| startWorkers
deriving DecidableEq

/-- Shallow embedding of `Bench.ensure_workers_running_if_available`.
Inputs: whether the workers compose file exists, whether the worker
compose project is running, whether the primary compose project is
running.  Output: the trace of start actions issued. -/
def ensure_workers_running_if_available
    (workers_compose_exists : Bool) (workers_running : Bool) (primary_running : Bool) :
    List WorkerEvent :=
  if workers_compose_exists then
    if !workers_running then
      if primary_running then [WorkerEvent.startWorkers] else []
    else []
  else []

/-! ### C2 — Bench.ensure_admin_tools_running_if_available

Source (site.py, lines 1019-1034).  The collaborator call
`get_services_running_status()` is not part of this repository; the
specification (section 6) describes it as
`serviceStatuses(descriptor) -> mapping(service -> status)`, so it is
modelled as an association list from service name to status string.
The Python statement `for service in running_services:` iterates the
keys of that mapping (Python dict iteration yields keys), so the loop
compares service NAMES with the string "running"; the embedding keeps
that behaviour faithfully. -/

inductive AdminToolsEvent
| enableAdminTools
| disableAdminTools
deriving DecidableEq

/-- Shallow embedding of `Bench.ensure_admin_tools_running_if_available`.
`running_services` is the mapping returned by
`get_services_running_status()` as (service name, status) pairs in
iteration order. -/
def ensure_admin_tools_running_if_available
    (admin_tools_compose_exists : Bool) (admin_tools_config : Bool)
    (admin_tools_running : Bool) (primary_running : Bool)
    (running_services : List (String × String)) :
    List AdminToolsEvent :=
  if admin_tools_compose_exists then
    if admin_tools_config then
      if !admin_tools_running then
        if primary_running then [AdminToolsEvent.enableAdminTools] else []
      else []
    else
      let atleast_one_service_running :=
        running_services.any (fun service => service.1 == "running")
      if atleast_one_service_running then [AdminToolsEvent.disableAdminTools] else []
  else []

/-! ### C3 — Bench.sync_workers_compose

Source (site.py, lines 526-534):
  self.regenerate_workers_supervisor_conf()
  are_workers_not_changed = self.workers.is_expected_worker_same_as_template()
  if are_workers_not_changed:
      richprint.print("Workers configuration remains unchanged.")
      return
  self.workers.generate_compose()
  self.workers.compose_project.start_service(force_recreate=force_recreate)

The two collaborator methods live in BenchWorkers, which is not part of
this repository; both are modelled from the specification. -/

inductive WorkersSyncEvent
| regenerateSupervisorConf
| reportUnchanged
| generateWorkersCompose
| startWorkers (force_recreate : Bool)
deriving DecidableEq

/-- State of the materialized workers compose descriptor; the abstract
content is a `Nat` (the exact file format is out of scope). `none`
means the descriptor has not been generated yet. -/
structure WorkersComposeState where
  materialized : Option Nat
deriving DecidableEq

/-- Modelled from the spec: `BenchWorkers.is_expected_worker_same_as_template`
(not under src/) compares the newly generated worker descriptor
(`expected`, derived deterministically from the freshly regenerated
supervisor configuration) against the previously materialized one and
returns true iff they are semantically unchanged. -/
def is_expected_worker_same_as_template (expected : Nat) (s : WorkersComposeState) : Bool :=
  s.materialized == some expected

/-- Modelled from the spec: `BenchWorkers.generate_compose` (not under
src/) regenerates the worker declarative descriptor from the generated
configuration, so the materialized descriptor becomes `expected`. -/
def workers_generate_compose (expected : Nat) (_s : WorkersComposeState) : WorkersComposeState :=
  { materialized := some expected }

/-- Shallow embedding of `Bench.sync_workers_compose`. `expected` is
the worker configuration produced by the regeneration step (unchanged
between two calls when no configuration change intervenes). Returns the
new descriptor state together with the trace of events. -/
def sync_workers_compose (expected : Nat) (force_recreate : Bool) (s : WorkersComposeState) :
    WorkersComposeState × List WorkersSyncEvent :=
  if is_expected_worker_same_as_template expected s then
    (s, [WorkersSyncEvent.regenerateSupervisorConf, WorkersSyncEvent.reportUnchanged])
  else
    (workers_generate_compose expected s,
      [WorkersSyncEvent.regenerateSupervisorConf,
       WorkersSyncEvent.generateWorkersCompose,
       WorkersSyncEvent.startWorkers force_recreate])

/-! ### C4 — Bench.update_certificate / remove_certificate / create_certificate

Source (site.py, lines 625-650).  The SSLCertificateManager collaborator
is not part of this repository; its observable behaviour is modelled
from the specification (sections 3, 4.4 and 6): the backend stores one
certificate descriptor, `hasCertificate()` is true exactly when the
stored descriptor mode is not `none`, `set_certificate` replaces the
stored descriptor, `generate_certificate` issues it, and
`remove_certificate` revokes it so the backend afterwards reports no
certificate. -/

inductive SUPPORTED_SSL_TYPES
| le
| none
deriving DecidableEq

structure SSLCertificate where
  domain : String
  ssl_type : SUPPORTED_SSL_TYPES
deriving DecidableEq

/-- The parts of a Bench that the certificate lifecycle touches: the
bench name, the certificate stored by the SSL certificate manager and
the SSL descriptor stored in the persisted bench config. -/
structure CertBenchState where
  name : String
  manager_certificate : SSLCertificate
  bench_config_ssl : SSLCertificate
deriving DecidableEq

inductive CertEvent
| generateCertificate
| revokeCertificate
| saveBenchConfig
deriving DecidableEq

inductive CertError
| benchSSLCertificateAlreadyIssued (name : String)
| benchSSLCertificateNotIssued (name : String)
deriving DecidableEq

/-- Modelled from the spec: `SSLCertificateManager.has_certificate`
(not under src/) reports whether the backend holds an active
certificate; per the data-model invariant, this holds exactly when the
stored descriptor mode is not `none`. `Bench.has_certificate` (site.py,
lines 629-630) simply delegates to it. -/
def has_certificate (s : CertBenchState) : Bool :=
  s.manager_certificate.ssl_type != SUPPORTED_SSL_TYPES.none

/-- Shallow embedding of `Bench.remove_certificate` (site.py, lines
632-635): revoke through the manager, reset the stored SSL descriptor
to mode `none` for the bench domain, persist the bench config. -/
def remove_certificate (s : CertBenchState) : CertBenchState × List CertEvent :=
  ({ s with
      manager_certificate := { s.manager_certificate with ssl_type := SUPPORTED_SSL_TYPES.none },
      bench_config_ssl := ⟨s.name, SUPPORTED_SSL_TYPES.none⟩ },
    [CertEvent.revokeCertificate, CertEvent.saveBenchConfig])

/-- Shallow embedding of `Bench.create_certificate` (site.py, lines
625-627): issue through the manager, then persist the bench config. -/
def create_certificate (s : CertBenchState) : CertBenchState × List CertEvent :=
  (s, [CertEvent.generateCertificate, CertEvent.saveBenchConfig])

/-- Shallow embedding of `Bench.update_certificate` (site.py, lines
637-650). -/
def update_certificate (certificate : SSLCertificate) (s : CertBenchState) :
    Except CertError (CertBenchState × List CertEvent) :=
  if certificate.ssl_type = SUPPORTED_SSL_TYPES.le then
    if has_certificate s then
      Except.error (CertError.benchSSLCertificateAlreadyIssued s.name)
    else
      Except.ok (create_certificate
        { s with manager_certificate := certificate, bench_config_ssl := certificate })
  else
    if has_certificate s then
      Except.ok (remove_certificate s)
    else
      Except.error (CertError.benchSSLCertificateNotIssued s.name)

/-! ### C5 — Bench.is_bench_created and the creation-time status check

Source (site.py, lines 502-524).  Each loop iteration executes a curl
probe inside the frappe service; a transport/exec failure is caught and
followed by one `time.sleep(interval)`; a successful exec returns true
iff some stdout line contains "HTTP/1.1 200 OK".  The docker transport
is an oracle mapping the attempt index to its outcome. -/

inductive ProbeStep
| transportError
| httpLines (lines : List String)

/-- Substring test: `pat` occurs somewhere inside `s` (the Python
operator `in` on strings). -/
def hasSubstr (s pat : String) : Bool :=
  (List.range (s.length + 1)).any (fun i => ((s.drop i).take pat.length) == pat)

/-- Outcome of the probe loop: the returned boolean, the number of exec
attempts performed and the number of sleep calls performed. -/
structure ProbeOutcome where
  result : Bool
  attempts : Nat
  sleeps : Nat
deriving DecidableEq

/-- The probe loop of `is_bench_created`: `n` remaining iterations,
`i` the index of the current attempt. -/
def is_bench_created_go (transport : Nat → ProbeStep) : Nat → Nat → ProbeOutcome
| 0, _ => ⟨false, 0, 0⟩
| n + 1, i =>
  match transport i with
  | ProbeStep.httpLines lines =>
      if lines.any (fun line => hasSubstr line "HTTP/1.1 200 OK") then
        ⟨true, 1, 0⟩
      else
        let r := is_bench_created_go transport n (i + 1)
        ⟨r.result, r.attempts + 1, r.sleeps⟩
  | ProbeStep.transportError =>
      let r := is_bench_created_go transport n (i + 1)
      ⟨r.result, r.attempts + 1, r.sleeps + 1⟩

/-- Shallow embedding of `Bench.is_bench_created` (default retry budget
60, one fixed sleep of `interval` seconds after each failed attempt). -/
def is_bench_created (transport : Nat → ProbeStep) (retry : Nat := 60) : ProbeOutcome :=
  is_bench_created_go transport retry 0

inductive CreateEvent
| removeAttachedSecrets
| createCertificate
| configureAdminTools
| reportInfo
| saveBenchConfig
deriving DecidableEq

/-- Shallow embedding of the status-check segment of `Bench.create`
(site.py, lines 173-197): if `is_bench_created()` returned false the
pipeline raises "Bench site is inactive or unresponsive." and none of
the subsequent steps run; otherwise the remaining steps run in order. -/
def create_site_status_check (bench_created : Bool) (admin_tools : Bool) :
    Except String (List CreateEvent) :=
  if !bench_created then
    Except.error "Bench site is inactive or unresponsive."
  else
    Except.ok
      ([CreateEvent.removeAttachedSecrets, CreateEvent.createCertificate]
        ++ (if admin_tools then [CreateEvent.configureAdminTools] else [])
        ++ [CreateEvent.reportInfo, CreateEvent.saveBenchConfig])

/-! ### C6 — Bench.backup_workers_supervisor_conf / regenerate_workers_supervisor_conf

Source (site.py, lines 541-588).  `backup_workers_supervisor_conf`
snapshots `self.workers.supervisor_config_path` through a BackupManager
and then, only when that path exists, walks the workers config
directory and snapshots every regular file whose name ends with
".fm.supervisor.conf".  `regenerate_workers_supervisor_conf` calls it
first and then executes the two external regeneration commands inside
the frappe service; a DockerException from either raises
BenchWorkersSupervisorConfigurtionGenerateError without restoring any
backup (`backup_restore_workers_supervisor` is a separate method that
this code never calls).  The BackupManager (not under src/) is modelled
from the specification as `snapshot(path) -> SnapshotHandle`, reified
as the list of snapshotted paths. -/

/-- Filesystem view needed by the workers backup: whether the
supervisor config artifact exists and the entries of the workers config
directory as (file name, is regular file) pairs. -/
structure WorkersConfigDir where
  supervisor_config_exists : Bool
  files : List (String × Bool)
deriving DecidableEq

/-- The Python `str.endswith` test, computed on the character lists of
the two strings. -/
def str_ends_with (s suffix : String) : Bool :=
  List.isSuffixOf suffix.data s.data

/-- Shallow embedding of `Bench.backup_workers_supervisor_conf`
(site.py, lines 541-558): the list of paths snapshotted into the
BackupSet, in order. -/
def backup_workers_supervisor_conf (supervisor_config_path : String)
    (d : WorkersConfigDir) : List String :=
  [supervisor_config_path]
    ++ (if d.supervisor_config_exists then
          (d.files.filter
            (fun f => f.2 && str_ends_with f.1 ".fm.supervisor.conf")).map
            (fun f => f.1)
        else [])

inductive RegenEvent
| backupFile (path : String)
| execBenchSetupSupervisor
| execDivideSupervisorConf
| restoreFile (path : String)
deriving DecidableEq

inductive RegenError
| benchWorkersSupervisorConfigurtionGenerateError (name : String)
deriving DecidableEq

/-- Shallow embedding of `Bench.regenerate_workers_supervisor_conf`
(site.py, lines 560-588).  `setup_ok` and `divide_ok` are the outcomes
of the two external commands executed inside the frappe service (false
means the command raised DockerException). -/
def regenerate_workers_supervisor_conf (name supervisor_config_path : String)
    (d : WorkersConfigDir) (setup_ok divide_ok : Bool) :
    List RegenEvent × Option RegenError :=
  let backups := (backup_workers_supervisor_conf supervisor_config_path d).map
      RegenEvent.backupFile
  if setup_ok then
    if divide_ok then
      (backups ++ [RegenEvent.execBenchSetupSupervisor, RegenEvent.execDivideSupervisorConf],
        none)
    else
      (backups ++ [RegenEvent.execBenchSetupSupervisor, RegenEvent.execDivideSupervisorConf],
        some (RegenError.benchWorkersSupervisorConfigurtionGenerateError name))
  else
    (backups ++ [RegenEvent.execBenchSetupSupervisor],
      some (RegenError.benchWorkersSupervisorConfigurtionGenerateError name))

/-! ### C7 and C8 — Bench.remove_containers_and_dirs

Source (site.py, lines 450-500).  The first half tears down the three
compose projects (primary, workers, admin tools): each group is torn
down (down_service with orphan and volume removal) when its compose
file exists and otherwise skipped with a warning.  The second half
removes the bench directory: a direct shutil.rmtree; on PermissionError
the code fetches the compose images and, ONLY when a "frappe" image is
listed, runs a chown inside that image over the workspace subtree and
retries the rmtree; any exception in that recovery raises
BenchRemoveDirectoryError(name, path).  When no "frappe" image is
listed the except-branch body is skipped entirely: the PermissionError
is swallowed, nothing is retried and the method falls through to the
success message with the directory still present. -/

inductive RmtreeResult
| ok
| permission_error
deriving DecidableEq

inductive RemoveEvent
| downPrimary
| warnPrimaryMissing
| downWorkers
| warnWorkersMissing
| downAdminTools
| warnAdminToolsMissing
| rmtreeBenchPath
| privilegeFixRun
| rmtreeRetry
| reportRemovedFiles
deriving DecidableEq

/-- Result of `remove_containers_and_dirs`: the event trace, the raised
error (carrying the bench name and path) if any, and whether the bench
directory is actually gone on return. -/
structure RemoveDirsResult where
  trace : List RemoveEvent
  error : Option (String × String)
  dir_deleted : Bool
deriving DecidableEq

/-- Shallow embedding of `Bench.remove_containers_and_dirs` (site.py,
lines 450-500).  `rmtree_first` is the outcome of the direct recursive
delete, `images_has_frappe` whether the compose images mapping lists a
"frappe" image, and `recovery_ok` whether the privilege-fix run plus
retried delete succeed. -/
def remove_containers_and_dirs (name path : String)
    (primary_compose_exists workers_compose_exists admin_tools_compose_exists : Bool)
    (rmtree_first : RmtreeResult) (images_has_frappe recovery_ok : Bool) :
    RemoveDirsResult :=
  let t1 := if primary_compose_exists then [RemoveEvent.downPrimary]
            else [RemoveEvent.warnPrimaryMissing]
  let t2 := if workers_compose_exists then [RemoveEvent.downWorkers]
            else [RemoveEvent.warnWorkersMissing]
  let t3 := if admin_tools_compose_exists then [RemoveEvent.downAdminTools]
            else [RemoveEvent.warnAdminToolsMissing]
  let pre := t1 ++ t2 ++ t3
  match rmtree_first with
  | RmtreeResult.ok =>
      ⟨pre ++ [RemoveEvent.rmtreeBenchPath, RemoveEvent.reportRemovedFiles], none, true⟩
  | RmtreeResult.permission_error =>
      if images_has_frappe then
        if recovery_ok then
          ⟨pre ++ [RemoveEvent.rmtreeBenchPath, RemoveEvent.privilegeFixRun,
              RemoveEvent.rmtreeRetry, RemoveEvent.reportRemovedFiles], none, true⟩
        else
          ⟨pre ++ [RemoveEvent.rmtreeBenchPath, RemoveEvent.privilegeFixRun,
              RemoveEvent.rmtreeRetry], some (name, path), false⟩
      else
        ⟨pre ++ [RemoveEvent.rmtreeBenchPath, RemoveEvent.reportRemovedFiles], none, false⟩

/-- True for the three group-teardown calls. -/
def isDownEvent : RemoveEvent → Bool
| RemoveEvent.downPrimary => true
| RemoveEvent.downWorkers => true
| RemoveEvent.downAdminTools => true
| _ => false

/-- True for the three skip warnings. -/
def isSkipWarning : RemoveEvent → Bool
| RemoveEvent.warnPrimaryMissing => true
| RemoveEvent.warnWorkersMissing => true
| RemoveEvent.warnAdminToolsMissing => true
| _ => false

/-! ### C9 — Bench.remove_attached_secrets

Source (site.py, lines 603-623): when the primary compose project is
running, the frappe service is stopped and, when the workers compose
file exists, the worker group is stopped; then the secrets are removed
from the descriptor and the descriptor file is rewritten; when the
groups had been running, the bench is started again (`self.start()`)
and the frappe log stream is followed until the supervisor is up.
When the primary group was not running, only the rewrite happens. -/

inductive SecretsEvent
| stopFrappeService
| stopWorkers
| removeSecretsFromContainer
| removeRootSecretsCompose
| writeComposeToFile
| startBench
| frappeLogsTillStart
deriving DecidableEq

/-- Shallow embedding of `Bench.remove_attached_secrets`. -/
def remove_attached_secrets (primary_running workers_compose_exists : Bool) :
    List SecretsEvent :=
  (if primary_running then
      [SecretsEvent.stopFrappeService]
        ++ (if workers_compose_exists then [SecretsEvent.stopWorkers] else [])
    else [])
    ++ [SecretsEvent.removeSecretsFromContainer, SecretsEvent.removeRootSecretsCompose,
        SecretsEvent.writeComposeToFile]
    ++ (if primary_running then [SecretsEvent.startBench, SecretsEvent.frappeLogsTillStart]
        else [])

/-! ### C10 — Bench.remove_bench

Source (site.py, lines 984-1011): prompt the user; when the answer is
"no" return False immediately — the certificate removal, the database
and user removal and the container/directory removal all come after
that early return.  Otherwise run them in order (a certificate removal
failure is only warned about) and return True. -/

inductive RemoveBenchEvent
| promptAsk (default_no : Bool)
| removeCertificate
| warnCertificateRemoveError
| removeDatabaseAndUser
| removeContainersAndDirs
deriving DecidableEq

/-- Shallow embedding of `Bench.remove_bench`.  `default_choice` is the
keyword argument selecting whether the prompt carries a default of
"no"; `answer` is the reply returned by the prompt;
`cert_remove_fails` tells whether `remove_certificate` raises. -/
def remove_bench (default_choice : Bool) (answer : String) (cert_remove_fails : Bool) :
    Bool × List RemoveBenchEvent :=
  if answer == "no" then
    (false, [RemoveBenchEvent.promptAsk default_choice])
  else
    (true,
      [RemoveBenchEvent.promptAsk default_choice]
        ++ (if cert_remove_fails then
              [RemoveBenchEvent.removeCertificate, RemoveBenchEvent.warnCertificateRemoveError]
            else [RemoveBenchEvent.removeCertificate])
        ++ [RemoveBenchEvent.removeDatabaseAndUser, RemoveBenchEvent.removeContainersAndDirs])

end FrappeManager

namespace FrappeManager

/-- C1: `ensure_workers_running_if_available` starts the worker group if
and only if the worker compose descriptor exists, the primary group is
running and the worker group is not running; in every other combination
it performs no action at all (the trace is empty, and the embedding is
a total function, so no error is ever raised). -/
theorem ensure_workers_running_iff (e w p : Bool) :
    (WorkerEvent.startWorkers ∈ ensure_workers_running_if_available e w p
      ↔ (e = true ∧ p = true ∧ w = false))
    ∧ (ensure_workers_running_if_available e w p = []
      ↔ ¬(e = true ∧ p = true ∧ w = false)) := by
  cases e <;> cases w <;> cases p <;> decide

/-- C2: evaluation of `ensure_admin_tools_running_if_available` at the
failing input.  With the admin-tools descriptor present, the config
flag false, the primary group running and the service-status mapping
reporting the service "mailhog" as "running", the code issues no
disable call (first conjunct) — the loop compares the service NAMES of
the mapping against the string "running", as the second conjunct shows:
a service literally named "running" whose status is "exited" does
trigger the disable call. -/
theorem ensure_admin_tools_drift_out_missed :
    ensure_admin_tools_running_if_available true false false true [("mailhog", "running")] = []
    ∧ ensure_admin_tools_running_if_available true false false true [("running", "exited")]
        = [AdminToolsEvent.disableAdminTools] := by
  constructor <;> rfl

/-- C3: if the regenerated worker configuration is reported unchanged,
`sync_workers_compose` reports the no-op signal and returns without
regenerating the worker compose descriptor and without any start of the
worker group; and invoking the pipeline twice with the same regenerated
configuration never starts the worker group on the second call. -/
theorem sync_workers_compose_idempotent (expected : Nat) (fr1 fr2 : Bool)
    (s : WorkersComposeState) :
    (is_expected_worker_same_as_template expected s = true →
        (sync_workers_compose expected fr1 s).2
          = [WorkersSyncEvent.regenerateSupervisorConf, WorkersSyncEvent.reportUnchanged])
    ∧ (sync_workers_compose expected fr2 (sync_workers_compose expected fr1 s).1).2
          = [WorkersSyncEvent.regenerateSupervisorConf, WorkersSyncEvent.reportUnchanged] := by
  constructor
  · intro h
    simp [sync_workers_compose, h]
  · by_cases h : is_expected_worker_same_as_template expected s = true
    · simp [sync_workers_compose, h]
    · have h2 : is_expected_worker_same_as_template expected
          (workers_generate_compose expected s) = true := by
        simp [is_expected_worker_same_as_template, workers_generate_compose]
      simp [sync_workers_compose, h, h2]

/-- C3 witness: the theorem applied at a concrete unchanged state. -/
theorem sync_workers_compose_idempotent_witness :
    (sync_workers_compose 0 false ⟨some 0⟩).2
      = [WorkersSyncEvent.regenerateSupervisorConf, WorkersSyncEvent.reportUnchanged] :=
  (sync_workers_compose_idempotent 0 false false ⟨some 0⟩).1 rfl

/-- C4: `update_certificate` implements the four-row mode-to-action
table.  Requesting an issued (le) certificate when one already exists
fails with the already-issued condition; requesting mode none when no
certificate exists fails with the not-issued condition; requesting mode
none when a certificate exists revokes it, resets the stored SSL
descriptor to mode none and persists the config, after which
`has_certificate` is false; requesting issued when none exists sets the
certificate, issues it and persists the config — and a second
consecutive issued request on the resulting state fails with the
already-issued condition. -/
theorem update_certificate_mode_table (certificate : SSLCertificate) (s : CertBenchState) :
    (certificate.ssl_type = SUPPORTED_SSL_TYPES.le → has_certificate s = true →
        update_certificate certificate s
          = Except.error (CertError.benchSSLCertificateAlreadyIssued s.name))
    ∧ (certificate.ssl_type = SUPPORTED_SSL_TYPES.none → has_certificate s = false →
        update_certificate certificate s
          = Except.error (CertError.benchSSLCertificateNotIssued s.name))
    ∧ (certificate.ssl_type = SUPPORTED_SSL_TYPES.none → has_certificate s = true →
        ∃ s2, update_certificate certificate s
            = Except.ok (s2, [CertEvent.revokeCertificate, CertEvent.saveBenchConfig])
          ∧ has_certificate s2 = false
          ∧ s2.bench_config_ssl.ssl_type = SUPPORTED_SSL_TYPES.none)
    ∧ (certificate.ssl_type = SUPPORTED_SSL_TYPES.le → has_certificate s = false →
        ∃ s2, update_certificate certificate s
            = Except.ok (s2, [CertEvent.generateCertificate, CertEvent.saveBenchConfig])
          ∧ s2.manager_certificate = certificate
          ∧ s2.bench_config_ssl = certificate
          ∧ update_certificate certificate s2
              = Except.error (CertError.benchSSLCertificateAlreadyIssued s2.name)) := by
  rcases certificate with ⟨d, ty⟩
  refine ⟨?_, ?_, ?_, ?_⟩
  · intro hty hc
    simp_all [update_certificate]
  · intro hty hc
    cases ty <;> simp_all [update_certificate]
  · intro hty hc
    cases ty <;> simp_all [update_certificate, remove_certificate, has_certificate]
  · intro hty hc
    refine ⟨{ s with manager_certificate := ⟨d, ty⟩, bench_config_ssl := ⟨d, ty⟩ },
      ?_, rfl, rfl, ?_⟩
    · simp_all [update_certificate, create_certificate]
    · simp_all [update_certificate, create_certificate, has_certificate]

/-- C4 witness: the issue row followed by the already-issued rejection,
and the revoke row, at concrete states. -/
theorem update_certificate_mode_table_witness :
    (∃ s2, update_certificate ⟨"shop.localhost", SUPPORTED_SSL_TYPES.le⟩
          ⟨"shop.localhost", ⟨"shop.localhost", SUPPORTED_SSL_TYPES.none⟩,
            ⟨"shop.localhost", SUPPORTED_SSL_TYPES.none⟩⟩
        = Except.ok (s2, [CertEvent.generateCertificate, CertEvent.saveBenchConfig])
      ∧ s2.manager_certificate = ⟨"shop.localhost", SUPPORTED_SSL_TYPES.le⟩
      ∧ s2.bench_config_ssl = ⟨"shop.localhost", SUPPORTED_SSL_TYPES.le⟩
      ∧ update_certificate ⟨"shop.localhost", SUPPORTED_SSL_TYPES.le⟩ s2
          = Except.error (CertError.benchSSLCertificateAlreadyIssued s2.name))
    ∧ (∃ s2, update_certificate ⟨"shop.localhost", SUPPORTED_SSL_TYPES.none⟩
          ⟨"shop.localhost", ⟨"shop.localhost", SUPPORTED_SSL_TYPES.le⟩,
            ⟨"shop.localhost", SUPPORTED_SSL_TYPES.le⟩⟩
        = Except.ok (s2, [CertEvent.revokeCertificate, CertEvent.saveBenchConfig])
      ∧ has_certificate s2 = false
      ∧ s2.bench_config_ssl.ssl_type = SUPPORTED_SSL_TYPES.none) :=
  ⟨(update_certificate_mode_table ⟨"shop.localhost", SUPPORTED_SSL_TYPES.le⟩
      ⟨"shop.localhost", ⟨"shop.localhost", SUPPORTED_SSL_TYPES.none⟩,
        ⟨"shop.localhost", SUPPORTED_SSL_TYPES.none⟩⟩).2.2.2 rfl rfl,
   (update_certificate_mode_table ⟨"shop.localhost", SUPPORTED_SSL_TYPES.none⟩
      ⟨"shop.localhost", ⟨"shop.localhost", SUPPORTED_SSL_TYPES.le⟩,
        ⟨"shop.localhost", SUPPORTED_SSL_TYPES.le⟩⟩).2.2.1 rfl rfl⟩

/-- With an always-erroring transport the probe loop performs exactly
one attempt and one sleep per remaining iteration and returns false. -/
theorem is_bench_created_go_all_errors (transport : Nat → ProbeStep)
    (h : ∀ i, transport i = ProbeStep.transportError) :
    ∀ n i, is_bench_created_go transport n i = ⟨false, n, n⟩ := by
  intro n
  induction n with
  | zero => intro i; rfl
  | succ m ih =>
      intro i
      simp [is_bench_created_go, h i, ih (i + 1)]

/-- C5: for every retry budget of at least one, if every probe attempt
fails with a transport error, `is_bench_created` performs exactly N
attempts with one sleep after each failed attempt and returns false;
and during bench creation a false probe result raises the fatal
"Bench site is inactive or unresponsive." condition, aborting the
pipeline before any of the remaining creation steps. -/
theorem is_bench_created_all_errors (N : Nat) (transport : Nat → ProbeStep)
    (admin_tools : Bool) (_hN : 1 ≤ N)
    (h : ∀ i, transport i = ProbeStep.transportError) :
    is_bench_created transport N = ⟨false, N, N⟩
    ∧ create_site_status_check (is_bench_created transport N).result admin_tools
        = Except.error "Bench site is inactive or unresponsive." := by
  have hrun : is_bench_created transport N = ⟨false, N, N⟩ :=
    is_bench_created_go_all_errors transport h N 0
  refine ⟨hrun, ?_⟩
  rw [hrun]
  rfl

/-- C5 witness: the theorem applied at retry budget 3 with an
always-erroring transport. -/
theorem is_bench_created_all_errors_witness :
    is_bench_created (fun _ => ProbeStep.transportError) 3 = ⟨false, 3, 3⟩
    ∧ create_site_status_check
        (is_bench_created (fun _ => ProbeStep.transportError) 3).result false
        = Except.error "Bench site is inactive or unresponsive." :=
  is_bench_created_all_errors 3 (fun _ => ProbeStep.transportError) false
    (by decide) (fun _ => rfl)

/-- C6 counterexample: when the supervisor config artifact is absent
but a sibling generated file with the recognized suffix exists, the
sibling is NOT snapshotted (the sibling scan is guarded by the
existence of the artifact), contradicting the claim that every sibling
generated file with the recognized suffix is unconditionally
snapshotted. -/
theorem regenerate_workers_backup_sibling_skipped :
    RegenEvent.backupFile "frappe-bench-workers.fm.supervisor.conf"
      ∉ (regenerate_workers_supervisor_conf "shop.localhost" "config/supervisor.conf"
          ⟨false, [("frappe-bench-workers.fm.supervisor.conf", true)]⟩ true true).1 := by
  decide

/-- C6 (amended): before any external regeneration command runs,
`regenerate_workers_supervisor_conf` snapshots the current supervisor
config artifact and — when that artifact exists — every sibling
regular file with the recognized suffix into the BackupSet (the trace
begins with exactly the backup events); if either external regeneration
command fails, the dedicated fatal
worker-supervisor-configuration-generate condition is raised; and no
run ever restores a backup itself. -/
theorem regenerate_workers_backup_and_failfast (name scp : String)
    (d : WorkersConfigDir) (setup_ok divide_ok : Bool) :
    RegenEvent.backupFile scp
        ∈ (regenerate_workers_supervisor_conf name scp d setup_ok divide_ok).1
    ∧ (d.supervisor_config_exists = true →
        ∀ f ∈ d.files, f.2 = true → str_ends_with f.1 ".fm.supervisor.conf" = true →
          RegenEvent.backupFile f.1
            ∈ (regenerate_workers_supervisor_conf name scp d setup_ok divide_ok).1)
    ∧ (regenerate_workers_supervisor_conf name scp d setup_ok divide_ok).1.take
          (backup_workers_supervisor_conf scp d).length
        = (backup_workers_supervisor_conf scp d).map RegenEvent.backupFile
    ∧ (setup_ok = false ∨ divide_ok = false →
        (regenerate_workers_supervisor_conf name scp d setup_ok divide_ok).2
          = some (RegenError.benchWorkersSupervisorConfigurtionGenerateError name))
    ∧ (∀ p, RegenEvent.restoreFile p
        ∉ (regenerate_workers_supervisor_conf name scp d setup_ok divide_ok).1) := by
  have hshape : ∃ E : List RegenEvent,
      (regenerate_workers_supervisor_conf name scp d setup_ok divide_ok).1
        = (backup_workers_supervisor_conf scp d).map RegenEvent.backupFile ++ E
      ∧ (∀ q, RegenEvent.restoreFile q ∉ E) := by
    cases setup_ok <;> cases divide_ok <;>
      exact ⟨_, rfl, by intro q; simp [regenerate_workers_supervisor_conf]⟩
  obtain ⟨E, hE, hnores⟩ := hshape
  refine ⟨?_, ?_, ?_, ?_, ?_⟩
  · rw [hE]
    simp [backup_workers_supervisor_conf]
  · intro hex f hf hfile hsuffix
    rw [hE]
    refine List.mem_append_left _ ?_
    refine List.mem_map.mpr ⟨f.1, ?_, rfl⟩
    simp only [backup_workers_supervisor_conf, hex, if_true]
    refine List.mem_append_right _ ?_
    exact List.mem_map.mpr ⟨f, List.mem_filter.mpr ⟨hf, by simp [hfile, hsuffix]⟩, rfl⟩
  · rw [hE]
    rw [show (backup_workers_supervisor_conf scp d).length
          = ((backup_workers_supervisor_conf scp d).map RegenEvent.backupFile).length by
        simp]
    exact List.take_left _ _
  · intro h
    rcases h with h | h <;> subst h
    · simp [regenerate_workers_supervisor_conf]
    · cases setup_ok <;> simp [regenerate_workers_supervisor_conf]
  · intro q
    rw [hE]
    intro hmem
    rcases List.mem_append.mp hmem with hb | he
    · obtain ⟨x, _, hx⟩ := List.mem_map.mp hb
      exact RegenEvent.noConfusion hx
    · exact hnores q he

/-- C6 witness: at a concrete state where the artifact exists together
with one qualifying sibling and the second external command fails, the
sibling is snapshotted and the fatal condition is raised. -/
theorem regenerate_workers_backup_and_failfast_witness :
    RegenEvent.backupFile "frappe-bench-workers.fm.supervisor.conf"
        ∈ (regenerate_workers_supervisor_conf "shop.localhost" "config/supervisor.conf"
            ⟨true, [("frappe-bench-workers.fm.supervisor.conf", true)]⟩ true false).1
    ∧ (regenerate_workers_supervisor_conf "shop.localhost" "config/supervisor.conf"
          ⟨true, [("frappe-bench-workers.fm.supervisor.conf", true)]⟩ true false).2
        = some (RegenError.benchWorkersSupervisorConfigurtionGenerateError "shop.localhost") :=
  ⟨(regenerate_workers_backup_and_failfast "shop.localhost" "config/supervisor.conf"
      ⟨true, [("frappe-bench-workers.fm.supervisor.conf", true)]⟩ true false).2.1 rfl
      ("frappe-bench-workers.fm.supervisor.conf", true) (by decide) rfl (by decide),
   (regenerate_workers_backup_and_failfast "shop.localhost" "config/supervisor.conf"
      ⟨true, [("frappe-bench-workers.fm.supervisor.conf", true)]⟩ true false).2.2.2.1
      (Or.inr rfl)⟩

/-- C7: each of the three groups is torn down if and only if its
compose descriptor exists, and otherwise a skip warning is emitted
instead (never an error); tearing down a bench with only the primary
descriptor present completes with exactly one teardown call, exactly
two skip warnings and no error. -/
theorem remove_containers_teardown_iff (name path : String)
    (p w a : Bool) (r : RmtreeResult) (ihf rok : Bool) :
    (RemoveEvent.downPrimary
        ∈ (remove_containers_and_dirs name path p w a r ihf rok).trace ↔ p = true)
    ∧ (RemoveEvent.warnPrimaryMissing
        ∈ (remove_containers_and_dirs name path p w a r ihf rok).trace ↔ p = false)
    ∧ (RemoveEvent.downWorkers
        ∈ (remove_containers_and_dirs name path p w a r ihf rok).trace ↔ w = true)
    ∧ (RemoveEvent.warnWorkersMissing
        ∈ (remove_containers_and_dirs name path p w a r ihf rok).trace ↔ w = false)
    ∧ (RemoveEvent.downAdminTools
        ∈ (remove_containers_and_dirs name path p w a r ihf rok).trace ↔ a = true)
    ∧ (RemoveEvent.warnAdminToolsMissing
        ∈ (remove_containers_and_dirs name path p w a r ihf rok).trace ↔ a = false)
    ∧ ((remove_containers_and_dirs name path true false false
          RmtreeResult.ok ihf rok).trace.countP (fun ev => isDownEvent ev) = 1
        ∧ (remove_containers_and_dirs name path true false false
            RmtreeResult.ok ihf rok).trace.countP (fun ev => isSkipWarning ev) = 2
        ∧ (remove_containers_and_dirs name path true false false
            RmtreeResult.ok ihf rok).error = none) := by
  refine ⟨?_, ?_, ?_, ?_, ?_, ?_, rfl, rfl, rfl⟩ <;>
    cases p <;> cases w <;> cases a <;> cases r <;> cases ihf <;> cases rok <;>
      simp [remove_containers_and_dirs]

/-- C8 counterexample: when the direct delete fails with a permission
error and the compose images list no "frappe" image, the code makes no
recovery attempt, raises no error and reports success while the bench
directory is still present — contradicting both the exactly-one
recovery attempt and the never-success-while-undeleted parts of the
claim. -/
theorem remove_dirs_permission_error_swallowed :
    (remove_containers_and_dirs "shop.localhost" "/benches/shop.localhost" true true true
        RmtreeResult.permission_error false true).error = none
    ∧ (remove_containers_and_dirs "shop.localhost" "/benches/shop.localhost" true true true
        RmtreeResult.permission_error false true).dir_deleted = false
    ∧ RemoveEvent.privilegeFixRun
        ∉ (remove_containers_and_dirs "shop.localhost" "/benches/shop.localhost" true true true
            RmtreeResult.permission_error false true).trace := by
  refine ⟨rfl, rfl, by decide⟩

/-- C8 (amended): when the direct recursive delete fails with a
permission error and the compose images list a "frappe" image, exactly
one privilege-fix run and one retried delete are performed; if that
recovery fails, the fatal directory-removal condition naming the bench
and its path is raised, and if it succeeds the directory is gone.  When
no "frappe" image is listed, the permission error is swallowed: no
recovery attempt is made, no error is raised and the method returns
with the directory still present. -/
theorem remove_dirs_permission_recovery (name path : String)
    (p w a : Bool) (ihf rok : Bool) :
    (ihf = true →
        (remove_containers_and_dirs name path p w a
            RmtreeResult.permission_error ihf rok).trace.countP
            (fun ev => ev == RemoveEvent.privilegeFixRun) = 1
        ∧ (remove_containers_and_dirs name path p w a
            RmtreeResult.permission_error ihf rok).trace.countP
            (fun ev => ev == RemoveEvent.rmtreeRetry) = 1
        ∧ (rok = false →
            (remove_containers_and_dirs name path p w a
                RmtreeResult.permission_error ihf rok).error = some (name, path))
        ∧ (rok = true →
            (remove_containers_and_dirs name path p w a
                RmtreeResult.permission_error ihf rok).error = none
            ∧ (remove_containers_and_dirs name path p w a
                RmtreeResult.permission_error ihf rok).dir_deleted = true))
    ∧ (ihf = false →
        (remove_containers_and_dirs name path p w a
            RmtreeResult.permission_error ihf rok).trace.countP
            (fun ev => ev == RemoveEvent.privilegeFixRun) = 0
        ∧ (remove_containers_and_dirs name path p w a
            RmtreeResult.permission_error ihf rok).error = none
        ∧ (remove_containers_and_dirs name path p w a
            RmtreeResult.permission_error ihf rok).dir_deleted = false) := by
  constructor
  · intro h
    subst h
    cases rok <;> cases p <;> cases w <;> cases a <;>
      exact ⟨rfl, rfl,
        fun h2 => by first | rfl | exact Bool.noConfusion h2,
        fun h2 => by first | exact ⟨rfl, rfl⟩ | exact Bool.noConfusion h2⟩
  · intro h
    subst h
    cases p <;> cases w <;> cases a <;> exact ⟨rfl, rfl, rfl⟩

/-- C8 witness: the amended theorem applied with the frappe image
present and a failing recovery, yielding the fatal condition. -/
theorem remove_dirs_permission_recovery_witness :
    (remove_containers_and_dirs "shop.localhost" "/benches/shop.localhost" true true true
        RmtreeResult.permission_error true false).trace.countP
        (fun ev => ev == RemoveEvent.privilegeFixRun) = 1
    ∧ (remove_containers_and_dirs "shop.localhost" "/benches/shop.localhost" true true true
        RmtreeResult.permission_error true false).trace.countP
        (fun ev => ev == RemoveEvent.rmtreeRetry) = 1
    ∧ (false = false →
        (remove_containers_and_dirs "shop.localhost" "/benches/shop.localhost" true true true
            RmtreeResult.permission_error true false).error
          = some ("shop.localhost", "/benches/shop.localhost"))
    ∧ (false = true →
        (remove_containers_and_dirs "shop.localhost" "/benches/shop.localhost" true true true
            RmtreeResult.permission_error true false).error = none
        ∧ (remove_containers_and_dirs "shop.localhost" "/benches/shop.localhost" true true true
            RmtreeResult.permission_error true false).dir_deleted = true) :=
  (remove_dirs_permission_recovery "shop.localhost" "/benches/shop.localhost"
    true true true true false).1 rfl

/-- C9: `remove_attached_secrets` never rewrites the compose descriptor
while the affected groups are live.  When the primary group is running,
the frappe service stop (and, when the workers descriptor exists, the
worker group stop) occurs strictly before the descriptor rewrite, the
rewrite occurs strictly before the restart, and the restart does
happen; when the primary group is not running, the rewrite happens with
no stop and no restart at all. -/
theorem remove_attached_secrets_bounce (pr we : Bool) :
    (pr = true →
        (remove_attached_secrets pr we).indexOf SecretsEvent.stopFrappeService
            < (remove_attached_secrets pr we).indexOf SecretsEvent.writeComposeToFile
        ∧ (we = true →
            (remove_attached_secrets pr we).indexOf SecretsEvent.stopWorkers
              < (remove_attached_secrets pr we).indexOf SecretsEvent.writeComposeToFile)
        ∧ (remove_attached_secrets pr we).indexOf SecretsEvent.writeComposeToFile
            < (remove_attached_secrets pr we).indexOf SecretsEvent.startBench
        ∧ SecretsEvent.stopFrappeService ∈ remove_attached_secrets pr we
        ∧ SecretsEvent.writeComposeToFile ∈ remove_attached_secrets pr we
        ∧ SecretsEvent.startBench ∈ remove_attached_secrets pr we)
    ∧ (pr = false →
        SecretsEvent.writeComposeToFile ∈ remove_attached_secrets pr we
        ∧ SecretsEvent.stopFrappeService ∉ remove_attached_secrets pr we
        ∧ SecretsEvent.stopWorkers ∉ remove_attached_secrets pr we
        ∧ SecretsEvent.startBench ∉ remove_attached_secrets pr we) := by
  cases pr <;> cases we <;> decide

/-- C9 witness: the theorem applied with both the primary group running
and the workers descriptor present. -/
theorem remove_attached_secrets_bounce_witness :
    (remove_attached_secrets true true).indexOf SecretsEvent.stopFrappeService
        < (remove_attached_secrets true true).indexOf SecretsEvent.writeComposeToFile
    ∧ (true = true →
        (remove_attached_secrets true true).indexOf SecretsEvent.stopWorkers
          < (remove_attached_secrets true true).indexOf SecretsEvent.writeComposeToFile)
    ∧ (remove_attached_secrets true true).indexOf SecretsEvent.writeComposeToFile
        < (remove_attached_secrets true true).indexOf SecretsEvent.startBench
    ∧ SecretsEvent.stopFrappeService ∈ remove_attached_secrets true true
    ∧ SecretsEvent.writeComposeToFile ∈ remove_attached_secrets true true
    ∧ SecretsEvent.startBench ∈ remove_attached_secrets true true :=
  (remove_attached_secrets_bounce true true).1 rfl

/-- C10: when the confirmation prompt of `remove_bench` is answered
"no", the method returns false and performs no destructive action: the
trace holds only the prompt, with no certificate removal, no database
and user removal and no container or directory removal. -/
theorem remove_bench_no_answer_noop (default_choice cert_remove_fails : Bool) :
    remove_bench default_choice "no" cert_remove_fails
        = (false, [RemoveBenchEvent.promptAsk default_choice])
    ∧ RemoveBenchEvent.removeCertificate
        ∉ (remove_bench default_choice "no" cert_remove_fails).2
    ∧ RemoveBenchEvent.removeDatabaseAndUser
        ∉ (remove_bench default_choice "no" cert_remove_fails).2
    ∧ RemoveBenchEvent.removeContainersAndDirs
        ∉ (remove_bench default_choice "no" cert_remove_fails).2 := by
  cases default_choice <;> cases cert_remove_fails <;> decide

end FrappeManager
